import Mathlib

/-!
Verification of `fastapi_throttling/throttle.py` (Secure-T-Team/fastapi-throttling).

The single source file defines `ThrottlingResponse` (a fixed 429 JSON response)
and `ThrottlingMiddleware`, an ASGI middleware that rate-limits requests by
client address and by a credential token, keeping counters in Redis.

Shallow embedding conventions:
* The Redis counter store is modelled as a function `String → Option CounterRecord`,
  a record holding the integer counter value and the remaining expiry (ttl).
  `redis.get` is lookup, `redis.set(key, v, ex=w)` writes `⟨v, w⟩`,
  `redis.incr` increments the value and (as in Redis) leaves the ttl untouched.
  The store is threaded explicitly through each operation.
* The downstream ASGI app, `receive` and `send` are opaque; the outcome of a
  request is modelled by `CallOutcome`: either the middleware sent a response
  itself, or it forwarded (scope, receive, send) to the downstream app.
* Python exceptions (e.g. `TypeError` from subscripting `None`) are modelled
  with `Except String`.
* Python `int` is `Int`; counter values, which start at 1 and are only
  incremented, are `Nat` and are cast to `Int` where the code compares them
  with the configured limit (`int(current_count) < self.limit`).
-/

namespace Throttle

/-- A Redis counter record: the stored integer value together with the
remaining expiry set by `SET ... EX window` (Redis `INCR` does not change it). -/
structure CounterRecord where
  value : Nat
  ttl : Int
  deriving DecidableEq, Repr

/-- The counter store: Redis restricted to the keys this middleware touches. -/
def Store : Type := String → Option CounterRecord

/-- The empty store: no identifier has a counter record. -/
def Store.empty : Store := fun _ => none

/-- `redis.set(key, v, ex=t)` / the store after writing one record. -/
def Store.set (s : Store) (key : String) (r : CounterRecord) : Store :=
  fun k => if k = key then some r else s k

/-- Configuration state of `ThrottlingMiddleware` as stored by `__init__`
(lines 34-48): `limit`, `window` and `token_header` are kept verbatim with no
validation.  The `app` and `redis` attributes are modelled as the explicit
downstream outcome and the threaded `Store`. -/
structure ThrottlingMiddleware where
  limit : Int
  window : Int
  token_header : String
  deriving DecidableEq, Repr

/-- `ThrottlingMiddleware.__init__` (lines 34-48).  The body only assigns the
attributes (and builds a default Redis connection); it contains no `raise` and
no check of `limit` or `window`, so it always succeeds. -/
def ThrottlingMiddleware.init (limit window : Int) (token_header : String) :
    Except String ThrottlingMiddleware :=
  .ok ⟨limit, window, token_header⟩

/-- `ThrottlingMiddleware.has_exceeded_rate_limit` (lines 77-90), returning the
decision (`true` = exceeded/deny) together with the updated store:

    current_count = self.redis.get(identifier)
    if current_count is None:
        self.redis.set(identifier, 1, ex=self.window)
        return False
    if int(current_count) < self.limit:
        self.redis.incr(identifier)
        return False
    return True
-/
def has_exceeded_rate_limit (m : ThrottlingMiddleware) (store : Store)
    (identifier : String) : Bool × Store :=
  match store identifier with
  | none => (false, store.set identifier ⟨1, m.window⟩)
  | some r =>
    if (r.value : Int) < m.limit then
      (false, store.set identifier ⟨r.value + 1, r.ttl⟩)
    else
      (true, store)

/-- `has_exceeded_rate_limit` with the store's own validation made explicit:
Redis rejects `SET key value EX t` for `t <= 0` with
`ResponseError: invalid expire time in 'set' command`, so the fresh-identifier
branch `self.redis.set(identifier, 1, ex=self.window)` raises at request time
when `window <= 0`.  The plain `has_exceeded_rate_limit` above is exact on
`window > 0`; this variant extends the model to malformed windows. -/
def has_exceeded_rate_limit_checked (m : ThrottlingMiddleware) (store : Store)
    (identifier : String) : Except String (Bool × Store) :=
  match store identifier with
  | none =>
    if m.window ≤ 0 then
      .error "ResponseError: invalid expire time in 'set' command"
    else
      .ok (false, store.set identifier ⟨1, m.window⟩)
  | some r =>
    if (r.value : Int) < m.limit then
      .ok (false, store.set identifier ⟨r.value + 1, r.ttl⟩)
    else
      .ok (true, store)

/-- The model of a starlette `JSONResponse`: status code and JSON object body. -/
structure JSONResponseModel where
  status_code : Nat
  content : List (String × String)
  deriving DecidableEq, Repr

/-- `ThrottlingResponse.__init__` (lines 7-11): fixed status 429 and fixed body
`{"detail": "Too Many Requests"}`. -/
def ThrottlingResponse : JSONResponseModel :=
  { status_code := 429, content := [("detail", "Too Many Requests")] }

/-- The part of an ASGI connection scope the middleware reads: its `type`, its
header list (name/value pairs as sent by the server), and `scope["client"]`,
which is either a `(host, port)` pair or absent/`None`. -/
structure AsgiScope where
  type : String
  headers : List (String × String)
  client : Option (String × Nat)
  deriving DecidableEq, Repr

/-- Python `str.lower()` for the ASCII header names involved, character by
character (structurally recursive so that concrete instances evaluate). -/
def strToLower (s : String) : String := String.mk (s.data.map Char.toLower)

/-- `starlette.datastructures.Headers.get(key)`: scan the raw header list for
the first name equal to the lowercased key; `None` when no header matches. -/
def headersGet (headers : List (String × String)) (key : String) : Option String :=
  (headers.find? (fun p => p.1 = strToLower key)).map (fun p => p.2)

/-- Python `next(iter(s), None)` on a string: its first character as a
one-character string, or `None` when the string is empty. -/
def firstChar (s : String) : Option String :=
  match s.data with
  | [] => none
  | c :: _ => some (String.mk [c])

/-- The `client_ip` expression of `__call__` (lines 58-60):

    headers.get("x-forwarded-for", next(iter(scope["client"][0]), None))

Python evaluates the default argument eagerly, so `scope["client"][0]` is
subscripted before the header is consulted: when `scope["client"]` is
absent/`None` this raises `TypeError` even if the header is present.  When the
client pair exists, the default is the FIRST CHARACTER of the host string
(`next` over `iter` of a `str` yields characters), and the header value wins
whenever the header is present. -/
def computeClientIp (scope : AsgiScope) : Except String (Option String) :=
  match scope.client with
  | none => .error "TypeError: 'NoneType' object is not subscriptable"
  | some (host, _) =>
    .ok (match headersGet scope.headers "x-forwarded-for" with
         | some v => some v
         | none => firstChar host)

/-- Outcome of one middleware invocation: either the middleware sent a response
itself (the downstream app is never invoked), or it called
`self.app(scope, receive, send)` with the scope it received. -/
inductive CallOutcome where
  | sent (resp : JSONResponseModel)
  | forwarded (scope : AsgiScope)
  deriving DecidableEq, Repr

/-- `ThrottlingMiddleware.__call__` (lines 50-75).  Non-`"http"` scopes are
forwarded untouched.  Otherwise `client_ip` is computed as above; a truthy
(non-empty) `client_ip` is rate-checked and a deny sends `ThrottlingResponse`;
then the same for the configured token header; otherwise the request is
forwarded.  Python's `and` short-circuits, so a falsy identifier skips its
rate check (and its store writes) entirely. -/
def call (m : ThrottlingMiddleware) (store : Store) (scope : AsgiScope) :
    Except String (CallOutcome × Store) :=
  if scope.type ≠ "http" then
    .ok (.forwarded scope, store)
  else
    match computeClientIp scope with
    | .error e => .error e
    | .ok client_ip =>
      let ipStep : Bool × Store :=
        match client_ip with
        | some ip => if ip ≠ "" then has_exceeded_rate_limit m store ip else (false, store)
        | none => (false, store)
      if ipStep.1 then
        .ok (.sent ThrottlingResponse, ipStep.2)
      else
        let store1 := ipStep.2
        match headersGet scope.headers m.token_header with
        | some t =>
          if t ≠ "" then
            let tokStep := has_exceeded_rate_limit m store1 t
            if tokStep.1 then
              .ok (.sent ThrottlingResponse, tokStep.2)
            else
              .ok (.forwarded scope, tokStep.2)
          else
            .ok (.forwarded scope, store1)
        | none => .ok (.forwarded scope, store1)

/-- A sequential burst: `n` consecutive `has_exceeded_rate_limit` calls for the
same identifier, returning the list of decisions (`false` = allow) and the
final store. -/
def burst (m : ThrottlingMiddleware) (id : String) : Nat → Store → List Bool × Store
  | 0, s => ([], s)
  | n + 1, s =>
    let r := has_exceeded_rate_limit m s id
    let rest := burst m id n r.2
    (r.1 :: rest.1, rest.2)

theorem Store.set_self (s : Store) (key : String) (r : CounterRecord) :
    (s.set key r) key = some r := by
  simp [Store.set]

theorem Store.set_other (s : Store) (key : String) (r : CounterRecord) (k : String)
    (h : k ≠ key) : (s.set key r) k = s k := by
  simp [Store.set, h]

theorem rate_fresh (m : ThrottlingMiddleware) (s : Store) (id : String)
    (hs : s id = none) :
    has_exceeded_rate_limit m s id = (false, s.set id ⟨1, m.window⟩) := by
  simp [has_exceeded_rate_limit, hs]

theorem rate_incr (m : ThrottlingMiddleware) (s : Store) (id : String) (r : CounterRecord)
    (hs : s id = some r) (hr : (r.value : Int) < m.limit) :
    has_exceeded_rate_limit m s id = (false, s.set id ⟨r.value + 1, r.ttl⟩) := by
  simp [has_exceeded_rate_limit, hs, hr]

theorem rate_deny (m : ThrottlingMiddleware) (s : Store) (id : String) (r : CounterRecord)
    (hs : s id = some r) (hr : m.limit ≤ (r.value : Int)) :
    has_exceeded_rate_limit m s id = (true, s) := by
  simp [has_exceeded_rate_limit, hs, not_lt.mpr hr]

theorem rate_frame (m : ThrottlingMiddleware) (s : Store) (id j : String) (h : j ≠ id) :
    (has_exceeded_rate_limit m s id).2 j = s j := by
  unfold has_exceeded_rate_limit
  cases hs : s id with
  | none => simp [Store.set_other _ _ _ _ h]
  | some r =>
    by_cases hlt : (r.value : Int) < m.limit
    · simp [hlt, Store.set_other _ _ _ _ h]
    · simp [hlt]

theorem rate_decision_local (m : ThrottlingMiddleware) (s s' : Store) (id : String)
    (h : s id = s' id) :
    (has_exceeded_rate_limit m s id).1 = (has_exceeded_rate_limit m s' id).1 := by
  unfold has_exceeded_rate_limit
  rw [h]
  cases s' id with
  | none => rfl
  | some r =>
    by_cases hlt : (r.value : Int) < m.limit <;> simp [hlt]

/-- **C1.** A single `has_exceeded_rate_limit` call: on a missing record it
stores value 1 with expiry `window` and allows; on a record with
`value < limit` it increments the value by 1, keeps the expiry, and allows;
on a record with `value >= limit` it denies and returns the store unchanged.
Other keys are never touched. -/
theorem rate_check_single_call_spec (m : ThrottlingMiddleware) (store : Store)
    (id : String) :
    (store id = none →
      (has_exceeded_rate_limit m store id).1 = false ∧
      (has_exceeded_rate_limit m store id).2 id = some ⟨1, m.window⟩ ∧
      ∀ j, j ≠ id → (has_exceeded_rate_limit m store id).2 j = store j) ∧
    (∀ r, store id = some r → (r.value : Int) < m.limit →
      (has_exceeded_rate_limit m store id).1 = false ∧
      (has_exceeded_rate_limit m store id).2 id = some ⟨r.value + 1, r.ttl⟩ ∧
      ∀ j, j ≠ id → (has_exceeded_rate_limit m store id).2 j = store j) ∧
    (∀ r, store id = some r → m.limit ≤ (r.value : Int) →
      (has_exceeded_rate_limit m store id).1 = true ∧
      (has_exceeded_rate_limit m store id).2 = store) := by
  refine ⟨fun hs => ?_, fun r hs hlt => ?_, fun r hs hge => ?_⟩
  · rw [rate_fresh m store id hs]
    exact ⟨rfl, Store.set_self _ _ _, fun j hj => Store.set_other _ _ _ _ hj⟩
  · rw [rate_incr m store id r hs hlt]
    exact ⟨rfl, Store.set_self _ _ _, fun j hj => Store.set_other _ _ _ _ hj⟩
  · rw [rate_deny m store id r hs hge]
    exact ⟨rfl, rfl⟩

/-- Concrete instantiations of all three branches of the C1 theorem
(limit 2, window 60; fresh key, under-limit key, at-limit key). -/
theorem rate_check_single_call_spec_witness :
    ((has_exceeded_rate_limit ⟨2, 60, "Authorization"⟩ Store.empty "a").1 = false ∧
     (has_exceeded_rate_limit ⟨2, 60, "Authorization"⟩ Store.empty "a").2 "a" =
       some ⟨1, 60⟩) ∧
    ((has_exceeded_rate_limit ⟨2, 60, "Authorization"⟩
        (Store.empty.set "a" ⟨1, 60⟩) "a").1 = false ∧
     (has_exceeded_rate_limit ⟨2, 60, "Authorization"⟩
        (Store.empty.set "a" ⟨1, 60⟩) "a").2 "a" = some ⟨2, 60⟩) ∧
    ((has_exceeded_rate_limit ⟨2, 60, "Authorization"⟩
        (Store.empty.set "a" ⟨2, 60⟩) "a").1 = true ∧
     (has_exceeded_rate_limit ⟨2, 60, "Authorization"⟩
        (Store.empty.set "a" ⟨2, 60⟩) "a").2 = Store.empty.set "a" ⟨2, 60⟩) := by
  refine ⟨?_, ?_, ?_⟩
  · have h := (rate_check_single_call_spec ⟨2, 60, "Authorization"⟩ Store.empty "a").1 rfl
    exact ⟨h.1, h.2.1⟩
  · have h := (rate_check_single_call_spec ⟨2, 60, "Authorization"⟩
      (Store.empty.set "a" ⟨1, 60⟩) "a").2.1 ⟨1, 60⟩ (by decide) (by decide)
    exact ⟨h.1, h.2.1⟩
  · have h := (rate_check_single_call_spec ⟨2, 60, "Authorization"⟩
      (Store.empty.set "a" ⟨2, 60⟩) "a").2.2 ⟨2, 60⟩ (by decide) (by decide)
    exact ⟨h.1, h.2⟩

theorem burst_add (m : ThrottlingMiddleware) (id : String) (a b : Nat) (s : Store) :
    burst m id (a + b) s =
      ((burst m id a s).1 ++ (burst m id b (burst m id a s).2).1,
       (burst m id b (burst m id a s).2).2) := by
  induction a generalizing s with
  | zero => simp [burst]
  | succ n ih =>
    rw [Nat.succ_add]
    simp [burst, ih]

theorem burst_allow (m : ThrottlingMiddleware) (id : String) (k : Nat) :
    ∀ (s : Store) (v : Nat) (t : Int), s id = some ⟨v, t⟩ →
      (v : Int) + k ≤ m.limit →
      (burst m id k s).1 = List.replicate k false ∧
      (burst m id k s).2 id = some ⟨v + k, t⟩ := by
  induction k with
  | zero => intro s v t hs _; simpa [burst] using hs
  | succ n ih =>
    intro s v t hs hle
    have hlt : (v : Int) < m.limit := by push_cast at hle ⊢; omega
    have hstep := rate_incr m s id ⟨v, t⟩ hs hlt
    have hnext : (s.set id ⟨v + 1, t⟩) id = some ⟨v + 1, t⟩ := Store.set_self _ _ _
    have hle' : ((v + 1 : Nat) : Int) + n ≤ m.limit := by push_cast at hle ⊢; omega
    have h := ih (s.set id ⟨v + 1, t⟩) (v + 1) t hnext hle'
    constructor
    · simp only [burst, hstep, h.1, List.replicate_succ]
    · simp only [burst, hstep]
      rw [h.2]
      have harith : v + 1 + n = v + (n + 1) := by omega
      rw [harith]

theorem burst_denied (m : ThrottlingMiddleware) (id : String) (k : Nat) (s : Store)
    (r : CounterRecord) (hs : s id = some r) (hr : m.limit ≤ (r.value : Int)) :
    burst m id k s = (List.replicate k true, s) := by
  induction k with
  | zero => simp [burst]
  | succ n ih =>
    simp only [burst, rate_deny m s id r hs hr, ih, List.replicate_succ]

theorem burst_from_fresh (m : ThrottlingMiddleware) (id : String) (M : Nat)
    (store : Store) (hfresh : store id = none)
    (hle : (1 : Int) + M ≤ m.limit) :
    (burst m id (M + 1) store).1 = List.replicate (M + 1) false ∧
    (burst m id (M + 1) store).2 id = some ⟨1 + M, m.window⟩ := by
  have hstep := rate_fresh m store id hfresh
  have hs1id : (store.set id ⟨1, m.window⟩) id = some ⟨1, m.window⟩ :=
    Store.set_self _ _ _
  have hallow := burst_allow m id M (store.set id ⟨1, m.window⟩) 1 m.window hs1id
    (by push_cast; omega)
  constructor
  · simp only [burst, hstep, hallow.1, List.replicate_succ]
  · simp only [burst, hstep, hallow.2]

/-- **C2.** For `limit = N ≥ 1` and a previously-unseen identifier, a
sequential burst of `N + 1` rate checks allows the first `N` and denies the
`(N+1)`-th; more generally every further call in the same window is denied,
so with `limit = 1` every request after the first is denied. -/
theorem burst_exhausts_limit (N : Nat) (m : ThrottlingMiddleware) (store : Store)
    (id : String) (hN : 1 ≤ N) (hlim : m.limit = (N : Int))
    (hfresh : store id = none) :
    (burst m id (N + 1) store).1 = List.replicate N false ++ [true] ∧
    ∀ k, (burst m id (N + 1 + k) store).1 =
      List.replicate N false ++ List.replicate (k + 1) true := by
  obtain ⟨M, rfl⟩ : ∃ M, N = M + 1 := ⟨N - 1, by omega⟩
  have key : ∀ k, (burst m id ((M + 1) + (k + 1)) store).1 =
      List.replicate (M + 1) false ++ List.replicate (k + 1) true := by
    intro k
    have hallow := burst_from_fresh m id M store hfresh
      (by rw [hlim]; push_cast; omega)
    have hdeny := burst_denied m id (k + 1) (burst m id (M + 1) store).2
      ⟨1 + M, m.window⟩ hallow.2 (by rw [hlim]; push_cast; omega)
    rw [burst_add m id (M + 1) (k + 1) store, hallow.1, hdeny]
  constructor
  · have h0 := key 0
    simpa using h0
  · intro k
    have hk := key k
    have harr : (M + 1) + (k + 1) = M + 1 + 1 + k := by omega
    rwa [harr] at hk

/-- Concrete instantiation of the C2 theorem: limit 2, fresh identifier,
burst of 3 gives allow, allow, deny. -/
theorem burst_exhausts_limit_witness :
    (burst ⟨2, 60, "Authorization"⟩ "x" (2 + 1) Store.empty).1 =
      List.replicate 2 false ++ [true] :=
  (burst_exhausts_limit 2 ⟨2, 60, "Authorization"⟩ Store.empty "x"
    (by omega) rfl rfl).1

/-- **C5.** A rate check on an identifier whose stored value is at or above the
limit denies and leaves the whole store unchanged, and any number of repeated
denied calls still leaves it unchanged: denied requests never grow the
counter. -/
theorem denied_call_leaves_store_unchanged (m : ThrottlingMiddleware) (s : Store)
    (id : String) (r : CounterRecord) (hs : s id = some r)
    (hr : m.limit ≤ (r.value : Int)) :
    has_exceeded_rate_limit m s id = (true, s) ∧
    ∀ k, burst m id k s = (List.replicate k true, s) :=
  ⟨rate_deny m s id r hs hr, fun k => burst_denied m id k s r hs hr⟩

/-- Concrete instantiation of the C5 theorem: limit 1, counter at 1, one denied
call and a run of three denied calls leave the store exactly as it was. -/
theorem denied_call_leaves_store_unchanged_witness :
    has_exceeded_rate_limit ⟨1, 60, "Authorization"⟩
        (Store.empty.set "a" ⟨1, 60⟩) "a" = (true, Store.empty.set "a" ⟨1, 60⟩) ∧
    burst ⟨1, 60, "Authorization"⟩ "a" 3 (Store.empty.set "a" ⟨1, 60⟩) =
      (List.replicate 3 true, Store.empty.set "a" ⟨1, 60⟩) := by
  have h := denied_call_leaves_store_unchanged ⟨1, 60, "Authorization"⟩
    (Store.empty.set "a" ⟨1, 60⟩) "a" ⟨1, 60⟩ (by decide) (by decide)
  exact ⟨h.1, h.2 3⟩

/-- **C3.** The claim says that without a forwarded-for header the address
identifier is the full transport-level peer address.  The code instead
evaluates `next(iter(scope["client"][0]), None)`, i.e. the FIRST CHARACTER of
the peer host: with peer `("1.2.3.4", 80)` and no `x-forwarded-for` header the
extracted identifier is `"1"`, and after the request the counter record lives
under key `"1"` while key `"1.2.3.4"` has none. -/
theorem clientIp_is_first_char_of_peer :
    computeClientIp ⟨"http", [("host", "example.com")], some ("1.2.3.4", 80)⟩ =
      .ok (some "1") ∧
    ∃ s, call ⟨2, 60, "Authorization"⟩ Store.empty
        ⟨"http", [("host", "example.com")], some ("1.2.3.4", 80)⟩ =
        .ok (.forwarded ⟨"http", [("host", "example.com")], some ("1.2.3.4", 80)⟩, s) ∧
      s "1" = some ⟨1, 60⟩ ∧ s "1.2.3.4" = none :=
  ⟨rfl, _, rfl, rfl, rfl⟩

/-- **C4.** The claim says an absent peer address yields no address without
raising.  Python evaluates the default argument of `headers.get` eagerly, so
`scope["client"][0]` is subscripted even before the header lookup: with
`scope["client"]` absent/`None` the middleware raises `TypeError` instead of
forwarding.  (The empty-host case, second conjunct, does behave as claimed:
no address, no token, the request is forwarded and the store untouched.) -/
theorem call_raises_on_absent_client :
    call ⟨100, 60, "Authorization"⟩ Store.empty ⟨"http", [], none⟩ =
      .error "TypeError: 'NoneType' object is not subscriptable" ∧
    call ⟨100, 60, "Authorization"⟩ Store.empty ⟨"http", [], some ("", 0)⟩ =
      .ok (.forwarded ⟨"http", [], some ("", 0)⟩, Store.empty) :=
  ⟨rfl, rfl⟩

theorem rate_check_checked_agrees (m : ThrottlingMiddleware) (s : Store)
    (id : String) (hw : 0 < m.window) :
    has_exceeded_rate_limit_checked m s id = .ok (has_exceeded_rate_limit m s id) := by
  unfold has_exceeded_rate_limit_checked has_exceeded_rate_limit
  cases s id with
  | none => simp [not_le.mpr hw]
  | some r => by_cases hlt : (r.value : Int) < m.limit <;> simp [hlt]

/-- **C8 (amended).** Construction never fails: `__init__` stores `limit`,
`window` and `token_header` verbatim with no validation, so a malformed policy
(`limit < 1` or `window <= 0`) is accepted at construction time; a malformed
window surfaces only at request time, where the fresh-identifier
`redis.set(identifier, 1, ex=window)` raises `ResponseError` for
`window <= 0`. -/
theorem init_accepts_any_policy (limit window : Int) (token_header : String) :
    ThrottlingMiddleware.init limit window token_header =
      .ok ⟨limit, window, token_header⟩ ∧
    (window ≤ 0 →
      has_exceeded_rate_limit_checked ⟨limit, window, token_header⟩
          Store.empty "id" =
        .error "ResponseError: invalid expire time in 'set' command") :=
  ⟨rfl, fun hw => by
    simp [has_exceeded_rate_limit_checked, Store.empty, hw]⟩

/-- Concrete instantiation of the C8 theorem: `limit = 100, window = 0` is
accepted by `__init__`, and the first rate check for a fresh identifier then
raises the store's invalid-expire error. -/
theorem init_accepts_any_policy_witness :
    ThrottlingMiddleware.init 100 0 "Authorization" =
      .ok ⟨100, 0, "Authorization"⟩ ∧
    has_exceeded_rate_limit_checked ⟨100, 0, "Authorization"⟩ Store.empty "id" =
      .error "ResponseError: invalid expire time in 'set' command" := by
  have h := init_accepts_any_policy 100 0 "Authorization"
  exact ⟨h.1, h.2 (by decide)⟩

/-- **C8 counterexample.** The claim says construction with `limit < 1` or
`window <= 0` fails fast; constructing with `limit = 0` and `window = 0`
succeeds (no exception is raised anywhere in `__init__`). -/
theorem init_does_not_reject_malformed_policy :
    ThrottlingMiddleware.init 0 0 "Authorization" = .ok ⟨0, 0, "Authorization"⟩ :=
  rfl

/-- **C9 (amended).** Identities with distinct identifier strings are
independent: a rate check for one neither changes the other's stored counter
nor the other's next decision. -/
theorem distinct_identifiers_independent (m : ThrottlingMiddleware) (s : Store)
    (id1 id2 : String) (h : id1 ≠ id2) :
    (has_exceeded_rate_limit m s id1).2 id2 = s id2 ∧
    (has_exceeded_rate_limit m (has_exceeded_rate_limit m s id1).2 id2).1 =
      (has_exceeded_rate_limit m s id2).1 := by
  have hframe := rate_frame m s id1 id2 (Ne.symm h)
  exact ⟨hframe, rate_decision_local m _ s id2 hframe⟩

/-- Concrete instantiation of the C9 theorem: a request for `"a"` leaves both
the counter and the decision for `"b"` untouched. -/
theorem distinct_identifiers_independent_witness :
    (has_exceeded_rate_limit ⟨1, 60, "Authorization"⟩ Store.empty "a").2 "b" =
      Store.empty "b" ∧
    (has_exceeded_rate_limit ⟨1, 60, "Authorization"⟩
        (has_exceeded_rate_limit ⟨1, 60, "Authorization"⟩ Store.empty "a").2 "b").1 =
      (has_exceeded_rate_limit ⟨1, 60, "Authorization"⟩ Store.empty "b").1 :=
  distinct_identifiers_independent ⟨1, 60, "Authorization"⟩ Store.empty "a" "b"
    (by decide)

/-- **C9 counterexample.** The claim says two identities never influence each
other "even when the two identifier strings are lexically equal".  The store
is keyed by the raw string, so with `limit = 1` an address request for `"abc"`
makes the very first token check for the lexically equal token `"abc"` deny,
while without that address request it would allow. -/
theorem equal_strings_share_one_counter :
    (has_exceeded_rate_limit ⟨1, 60, "Authorization"⟩ Store.empty "abc").1 =
      false ∧
    (has_exceeded_rate_limit ⟨1, 60, "Authorization"⟩
        (has_exceeded_rate_limit ⟨1, 60, "Authorization"⟩ Store.empty "abc").2
        "abc").1 = true := by
  decide

/-- **C10.** A scope whose `type` is not `"http"` is forwarded unchanged by
the middleware itself: the downstream app receives the original scope, the
store is untouched, and no rejection is sent. -/
theorem nonhttp_scope_bypasses_throttling (m : ThrottlingMiddleware) (s : Store)
    (scope : AsgiScope) (h : scope.type ≠ "http") :
    call m s scope = .ok (.forwarded scope, s) := by
  simp [call, h]

/-- Concrete instantiation of the C10 theorem: a websocket scope is forwarded
with the store untouched. -/
theorem nonhttp_scope_bypasses_throttling_witness :
    call ⟨100, 60, "Authorization"⟩ Store.empty ⟨"websocket", [], none⟩ =
      .ok (.forwarded ⟨"websocket", [], none⟩, Store.empty) :=
  nonhttp_scope_bypasses_throttling ⟨100, 60, "Authorization"⟩ Store.empty
    ⟨"websocket", [], none⟩ (by decide)

/-- **C6.** When the extracted address is present (truthy) and its counter is
at or above the limit, the middleware sends the rejection response and returns
the store exactly as it was: the token check never runs, so the token's
counter is untouched even when a token header is present and under-limit. -/
theorem over_limit_address_short_circuits (m : ThrottlingMiddleware) (s : Store)
    (scope : AsgiScope) (ip : String) (r : CounterRecord)
    (htype : scope.type = "http")
    (hip : computeClientIp scope = .ok (some ip)) (hne : ip ≠ "")
    (hs : s ip = some r) (hr : m.limit ≤ (r.value : Int)) :
    call m s scope = .ok (.sent ThrottlingResponse, s) := by
  have hdeny := rate_deny m s ip r hs hr
  simp [call, htype, hip, hne, hdeny]

/-- Concrete instantiation of the C6 theorem: address `"9.9.9.9"` at the limit
and token `"tok"` under the limit; the request is rejected and the store —
including the token's counter — is exactly the input store. -/
theorem over_limit_address_short_circuits_witness :
    call ⟨2, 60, "Authorization"⟩
        ((Store.empty.set "9.9.9.9" ⟨2, 60⟩).set "tok" ⟨1, 60⟩)
        ⟨"http", [("x-forwarded-for", "9.9.9.9"), ("authorization", "tok")],
          some ("1.2.3.4", 80)⟩ =
      .ok (.sent ThrottlingResponse,
        (Store.empty.set "9.9.9.9" ⟨2, 60⟩).set "tok" ⟨1, 60⟩) :=
  over_limit_address_short_circuits ⟨2, 60, "Authorization"⟩
    ((Store.empty.set "9.9.9.9" ⟨2, 60⟩).set "tok" ⟨1, 60⟩)
    ⟨"http", [("x-forwarded-for", "9.9.9.9"), ("authorization", "tok")],
      some ("1.2.3.4", 80)⟩
    "9.9.9.9" ⟨2, 60⟩ rfl rfl (by decide) (by decide) (by decide)

/-- **C7.** Every response the middleware itself sends (i.e. every outcome in
which the downstream app is not invoked) is the fixed rejection: status 429
with body `{"detail": "Too Many Requests"}`. -/
theorem gate_sends_only_fixed_429 (m : ThrottlingMiddleware) (s : Store)
    (scope : AsgiScope) (out : CallOutcome) (s' : Store)
    (h : call m s scope = .ok (out, s')) :
    ∀ resp, out = .sent resp →
      resp.status_code = 429 ∧ resp.content = [("detail", "Too Many Requests")] := by
  intro resp hout
  subst hout
  simp only [call] at h
  repeat any_goals split at h
  all_goals simp_all [ThrottlingResponse]
  all_goals (obtain ⟨h1, h2⟩ := h; rw [← h1]; exact ⟨rfl, rfl⟩)

/-- Concrete instantiation of the C7 theorem at a denied request (limit 1,
address counter already at 1). -/
theorem gate_sends_only_fixed_429_witness :
    ThrottlingResponse.status_code = 429 ∧
    ThrottlingResponse.content = [("detail", "Too Many Requests")] :=
  gate_sends_only_fixed_429 ⟨1, 60, "Authorization"⟩
    (Store.empty.set "9.9.9.9" ⟨1, 60⟩)
    ⟨"http", [("x-forwarded-for", "9.9.9.9")], some ("1.2.3.4", 80)⟩
    (.sent ThrottlingResponse) (Store.empty.set "9.9.9.9" ⟨1, 60⟩)
    rfl ThrottlingResponse rfl

end Throttle
